import Mathlib

/-!
Shallow embedding of the State-pattern machines of
`design-patterns-by-claude/rust/src/state.rs`: the vending machine, the
traffic light and the game character, together with theorems checking the
specification's claims about them.

Conventions of the embedding:
* All three state traits are implemented by unit structs (plus one `f32`
  field on `AttackingCharacterState`), so each trait object is represented
  by an inductive type whose constructors are the state structs.
* Rust `u32` fields are modelled as `Nat`.  The only place where `u32`
  arithmetic can underflow on a path the claims touch is the subtraction
  `inserted_amount - product_price` inside `DispensingState::dispense`;
  that subtraction is modelled explicitly: the dispatch returns `none`
  (a panic) when the minuend is smaller than the subtrahend, exactly as
  the Rust debug build would abort there.
* `Result<String, String>` is modelled as `Except String String`.
* `HashMap<String, Product>` is modelled as a list of products with
  insert-replaces-by-key semantics (`addProduct`) and first-match lookup
  (`findProduct`), which agrees with the hash map on key-unique maps.
* The public wrappers (`VendingMachine::insert_coin` … , `TrafficLight::tick`,
  `GameCharacter::update` / `handle_input`) all follow the source's
  `std::mem::replace` idiom: they detach the current state object
  (installing a placeholder), run the handler on the detached object, and
  afterwards assign the detached object back into `current_state`.  The
  embedding reproduces this literally, placeholder included.
-/

/-! ## Vending machine -/

deriving instance DecidableEq for Except

structure Product where
  id : String
  name : String
  price : Nat
  stock : Nat
deriving DecidableEq, Repr

inductive VMState where
  | Idle
  | HasMoney
  | Dispensing
deriving DecidableEq, Repr

structure VendingMachine where
  current_state : VMState
  products : List Product
  inserted_amount : Nat
  selected_product : Option String
  change_dispenser : Nat
deriving DecidableEq, Repr

/-- `HashMap::insert` keyed by `Product.id`: replace the entry with the same
key if present, otherwise append. -/
def addProduct (ps : List Product) (p : Product) : List Product :=
  match ps with
  | [] => [p]
  | q :: rest => if q.id = p.id then p :: rest else q :: addProduct rest p

/-- `HashMap::get` keyed by `Product.id` (first match). -/
def findProduct (ps : List Product) (product_id : String) : Option Product :=
  match ps with
  | [] => none
  | q :: rest => if q.id = product_id then some q else findProduct rest product_id

/-- `get_product_mut` followed by `product.stock -= 1`: decrement the stock of
the first product with the given id. -/
def decrementStock (ps : List Product) (product_id : String) : List Product :=
  match ps with
  | [] => []
  | q :: rest =>
    if q.id = product_id then { q with stock := q.stock - 1 } :: rest
    else q :: decrementStock rest product_id

def VendingMachine.add_product (m : VendingMachine) (p : Product) : VendingMachine :=
  { m with products := addProduct m.products p }

def VendingMachine.new : VendingMachine :=
  (((({ current_state := VMState.Idle, products := [], inserted_amount := 0,
        selected_product := none, change_dispenser := 1000 } : VendingMachine).add_product
    { id := "A1", name := "Soda", price := 150, stock := 10 }).add_product
    { id := "B1", name := "Chips", price := 125, stock := 8 }).add_product
    { id := "C1", name := "Candy", price := 100, stock := 15 }).add_product
    { id := "D1", name := "Water", price := 75, stock := 20 }

def VendingMachine.set_state (m : VendingMachine) (s : VMState) : VendingMachine :=
  { m with current_state := s }

def VendingMachine.get_product (m : VendingMachine) (product_id : String) : Option Product :=
  findProduct m.products product_id

def VendingMachine.can_make_change (m : VendingMachine) (amount : Nat) : Bool :=
  decide (amount ≤ m.change_dispenser)

def VendingMachine.dispense_change (m : VendingMachine) (amount : Nat) :
    Except String VendingMachine :=
  if amount ≤ m.change_dispenser then
    Except.ok { m with change_dispenser := m.change_dispenser - amount }
  else
    Except.error "Insufficient change available"

def VendingMachine.get_state_name (m : VendingMachine) : String :=
  match m.current_state with
  | VMState.Idle => "Idle"
  | VMState.HasMoney => "HasMoney"
  | VMState.Dispensing => "Dispensing"

/-- `IdleState::insert_coin` -/
def IdleState.insert_coin (m : VendingMachine) (amount : Nat) :
    Except String String × VendingMachine :=
  if amount = 0 then (Except.error "Invalid coin amount", m)
  else
    let m := { m with inserted_amount := m.inserted_amount + amount }
    let m := m.set_state VMState.HasMoney
    (Except.ok ("Inserted " ++ toString amount ++ "¢. Total: "
      ++ toString m.inserted_amount ++ "¢"), m)

/-- `HasMoneyState::insert_coin` -/
def HasMoneyState.insert_coin (m : VendingMachine) (amount : Nat) :
    Except String String × VendingMachine :=
  if amount = 0 then (Except.error "Invalid coin amount", m)
  else
    let m := { m with inserted_amount := m.inserted_amount + amount }
    (Except.ok ("Inserted " ++ toString amount ++ "¢. Total: "
      ++ toString m.inserted_amount ++ "¢"), m)

/-- `HasMoneyState::select_product` -/
def HasMoneyState.select_product (m : VendingMachine) (product_id : String) :
    Except String String × VendingMachine :=
  match m.get_product product_id with
  | none => (Except.error ("Product " ++ product_id ++ " not found"), m)
  | some product =>
    if product.stock = 0 then
      (Except.error ("Product " ++ product.name ++ " is out of stock"), m)
    else
      let inserted_amount := m.inserted_amount
      if inserted_amount < product.price then
        (Except.error ("Insufficient funds. Need "
          ++ toString (product.price - inserted_amount) ++ "¢ more"), m)
      else
        let change_needed := inserted_amount - product.price
        if 0 < change_needed ∧ ¬(m.can_make_change change_needed = true) then
          (Except.error "Exact change required", m)
        else
          let m := { m with selected_product := some product_id }
          let m := m.set_state VMState.Dispensing
          (Except.ok ("Selected " ++ product.name ++ ". Dispensing..."), m)

/-- `HasMoneyState::cancel_transaction` -/
def HasMoneyState.cancel_transaction (m : VendingMachine) :
    Except String String × VendingMachine :=
  let amount := m.inserted_amount
  let m := { m with inserted_amount := 0 }
  let m := m.set_state VMState.Idle
  (Except.ok ("Transaction cancelled. Returned " ++ toString amount ++ "¢"), m)

/-- The reset at the tail of `DispensingState::dispense`:
`clear_inserted_amount`, `set_selected_product(None)`, `set_state(IdleState)`. -/
def resetAfterDispense (m : VendingMachine) : VendingMachine :=
  ({ m with inserted_amount := 0, selected_product := none }).set_state VMState.Idle

/-- `DispensingState::dispense`.  Returns `none` when the `u32` subtraction
`inserted_amount - product_price` would underflow (a panic in the source). -/
def DispensingState.dispense (m : VendingMachine) :
    Option (Except String String × VendingMachine) :=
  match m.selected_product with
  | none => some (Except.error "No product selected", m)
  | some product_id =>
    let inserted_amount := m.inserted_amount
    match m.get_product product_id with
    | some product =>
      if 0 < product.stock then
        let m := { m with products := decrementStock m.products product_id }
        let product_name := product.name
        let product_price := product.price
        if inserted_amount < product_price then none
        else
          let change := inserted_amount - product_price
          if 0 < change then
            match m.dispense_change change with
            | Except.error e => some (Except.error e, m)
            | Except.ok m =>
              some (Except.ok ("Dispensed " ++ product_name ++ ". Change: "
                ++ toString change ++ "¢"), resetAfterDispense m)
          else
            some (Except.ok ("Dispensed " ++ product_name), resetAfterDispense m)
      else
        some (Except.error "Product out of stock", m.set_state VMState.HasMoney)
    | none => some (Except.ok "", resetAfterDispense m)

inductive VMEvent where
  | insertCoin (amount : Nat)
  | selectProduct (product_id : String)
  | dispense
  | cancelTransaction
deriving DecidableEq, Repr

/-- Dispatch of one event to the current state's handler (the body of the
trait-method call `state.<event>(self, …)`). -/
def handleVM (st : VMState) (e : VMEvent) (m : VendingMachine) :
    Option (Except String String × VendingMachine) :=
  match st, e with
  | VMState.Idle, VMEvent.insertCoin a => some (IdleState.insert_coin m a)
  | VMState.Idle, VMEvent.selectProduct _ =>
      some (Except.error "Please insert coins first", m)
  | VMState.Idle, VMEvent.dispense => some (Except.error "No product selected", m)
  | VMState.Idle, VMEvent.cancelTransaction =>
      some (Except.ok "No transaction to cancel", m)
  | VMState.HasMoney, VMEvent.insertCoin a => some (HasMoneyState.insert_coin m a)
  | VMState.HasMoney, VMEvent.selectProduct pid =>
      some (HasMoneyState.select_product m pid)
  | VMState.HasMoney, VMEvent.dispense =>
      some (Except.error "Please select a product first", m)
  | VMState.HasMoney, VMEvent.cancelTransaction =>
      some (HasMoneyState.cancel_transaction m)
  | VMState.Dispensing, VMEvent.insertCoin _ =>
      some (Except.error "Currently dispensing. Please wait", m)
  | VMState.Dispensing, VMEvent.selectProduct _ =>
      some (Except.error "Currently dispensing. Please wait", m)
  | VMState.Dispensing, VMEvent.dispense => DispensingState.dispense m
  | VMState.Dispensing, VMEvent.cancelTransaction =>
      some (Except.error "Cannot cancel during dispensing", m)

/-- The public wrappers `VendingMachine::{insert_coin, select_product,
dispense, cancel_transaction}`: detach the current state via
`std::mem::replace` (installing an `IdleState` placeholder), run the handler,
then assign the detached state object back into `current_state`. -/
def VendingMachine.step (m : VendingMachine) (e : VMEvent) :
    Option (Except String String × VendingMachine) :=
  match handleVM m.current_state e { m with current_state := VMState.Idle } with
  | none => none
  | some p => some (p.1, { p.2 with current_state := m.current_state })

/-- Run a sequence of public operations, `none` if any of them panics. -/
def VendingMachine.run (m : VendingMachine) : List VMEvent → Option VendingMachine
  | [] => some m
  | e :: es =>
    match m.step e with
    | none => none
    | some p => (p.2).run es

example :
    (VendingMachine.new.step (VMEvent.insertCoin 150)).map
      (fun p => p.2.get_state_name) = some "Idle" := by decide

example :
    (VendingMachine.new.step (VMEvent.insertCoin 150)).map
      (fun p => p.2.inserted_amount) = some 150 := by decide

/-! ## Traffic light

`RedLightState`, `YellowLightState` and `GreenLightState` are unit structs,
so the trait object is represented by the corresponding `TrafficColor`. -/

inductive TrafficColor where
  | Red
  | Yellow
  | Green
deriving DecidableEq, Repr

structure TrafficLight where
  current_state : TrafficColor
  elapsed_time : Nat
  is_pedestrian_requested : Bool
  emergency_mode : Bool
deriving DecidableEq, Repr

def TrafficLight.new : TrafficLight :=
  { current_state := TrafficColor.Red, elapsed_time := 0,
    is_pedestrian_requested := false, emergency_mode := false }

/-- `get_duration` of each state struct. -/
def lightDuration : TrafficColor → Nat
  | TrafficColor.Red => 30
  | TrafficColor.Yellow => 5
  | TrafficColor.Green => 45

/-- `TrafficLight::set_state`: install the state and reset `elapsed_time`. -/
def TrafficLight.set_state (l : TrafficLight) (s : TrafficColor) : TrafficLight :=
  { l with current_state := s, elapsed_time := 0 }

/-- The `next` method of the detached state object (`RedLightState::next`,
`YellowLightState::next`, `GreenLightState::next`). -/
def lightNext (st : TrafficColor) (l : TrafficLight) :
    Except String String × TrafficLight :=
  match st with
  | TrafficColor.Red =>
    (Except.ok "Traffic light changed from RED to GREEN",
      l.set_state TrafficColor.Green)
  | TrafficColor.Yellow =>
    (Except.ok "Traffic light changed from YELLOW to RED",
      l.set_state TrafficColor.Red)
  | TrafficColor.Green =>
    if l.is_pedestrian_requested = true ∧ l.elapsed_time < 45 then
      (Except.ok "Pedestrian crossing requested - extending GREEN light",
        { l with is_pedestrian_requested := false })
    else
      (Except.ok "Traffic light changed from GREEN to YELLOW",
        l.set_state TrafficColor.Yellow)

/-- `TrafficLight::tick`: increment `elapsed_time`; in emergency mode force
Red; otherwise when the duration has elapsed, detach the state
(`std::mem::replace` with a `RedLightState` placeholder), run its `next`,
and assign the detached object back into `current_state`. -/
def TrafficLight.tick (l : TrafficLight) : Except String String × TrafficLight :=
  let l := { l with elapsed_time := l.elapsed_time + 1 }
  if l.emergency_mode = true then
    (Except.ok "Emergency mode: Traffic light set to RED",
      l.set_state TrafficColor.Red)
  else
    if lightDuration l.current_state ≤ l.elapsed_time then
      let p := lightNext l.current_state { l with current_state := TrafficColor.Red }
      (p.1, { p.2 with current_state := l.current_state })
    else
      (Except.ok ("Current: remaining "
        ++ toString (lightDuration l.current_state - l.elapsed_time)), l)

/-- `TrafficLight::set_emergency_mode`. -/
def TrafficLight.set_emergency_mode (l : TrafficLight) (enabled : Bool) :
    TrafficLight :=
  let l := { l with emergency_mode := enabled }
  if enabled then l.set_state TrafficColor.Red else l

def TrafficLight.get_current_color (l : TrafficLight) : TrafficColor :=
  l.current_state

/-- `tick`, keeping only the machine. -/
def TrafficLight.tickL (l : TrafficLight) : TrafficLight := (l.tick).2

/-- `n` consecutive `tick` calls. -/
def TrafficLight.tickN (l : TrafficLight) : Nat → TrafficLight
  | 0 => l
  | n + 1 => (l.tickL).tickN n

example : (TrafficLight.new.tickN 31).get_current_color = TrafficColor.Red := by decide

/-! ## Game character

The source stores `position`, `velocity` and the timers as `f32`.  They are
modelled here as `ℚ`.  On every trace appearing in the theorems below all
these quantities stay at small integer values (in fact `0`, `5`, `8` and
multiples of `1`), on which `f32` arithmetic is exact, and no error path of
`handle_input` performs any floating-point arithmetic at all, so the
rational model agrees with the source on everything the claims state. -/

inductive CharState where
  | Idle
  | Walking
  | Jumping
  | Attacking (attack_timer : ℚ)
deriving DecidableEq, Repr

inductive GameInput where
  | MoveLeft
  | MoveRight
  | Jump
  | Attack
  | Block
  | Idle
deriving DecidableEq, Repr

structure GameCharacter where
  current_state : CharState
  position : ℚ × ℚ
  velocity : ℚ × ℚ
  health : Nat
  energy : Nat
  is_grounded : Bool
  facing_right : Bool
  animation_time : ℚ
deriving DecidableEq, Repr

def GameCharacter.new : GameCharacter :=
  { current_state := CharState.Idle, position := (0, 0), velocity := (0, 0),
    health := 100, energy := 100, is_grounded := true, facing_right := true,
    animation_time := 0 }

/-- `GameCharacter::set_state`: install the state and reset `animation_time`. -/
def GameCharacter.set_state (c : GameCharacter) (s : CharState) : GameCharacter :=
  { c with current_state := s, animation_time := 0 }

/-- `GameCharacter::consume_energy`: subtract only when affordable, reporting
success. -/
def GameCharacter.consume_energy (c : GameCharacter) (amount : Nat) :
    Bool × GameCharacter :=
  if amount ≤ c.energy then (true, { c with energy := c.energy - amount })
  else (false, c)

def GameCharacter.get_state_name (c : GameCharacter) : String :=
  match c.current_state with
  | CharState.Idle => "Idle"
  | CharState.Walking => "Walking"
  | CharState.Jumping => "Jumping"
  | CharState.Attacking _ => "Attacking"

/-- `IdleCharacterState::handle_input`. -/
def IdleCharacterState.handle_input (c : GameCharacter) (input : GameInput) :
    Except String String × GameCharacter :=
  match input with
  | GameInput.MoveLeft =>
    let c := c.set_state CharState.Walking
    let c := { c with facing_right := false }
    let c := { c with velocity := (-5, c.velocity.2) }
    (Except.ok "Started walking left", c)
  | GameInput.MoveRight =>
    let c := c.set_state CharState.Walking
    let c := { c with facing_right := true }
    let c := { c with velocity := (5, c.velocity.2) }
    (Except.ok "Started walking right", c)
  | GameInput.Jump =>
    if c.is_grounded = true then
      match c.consume_energy 20 with
      | (true, c) =>
        let c := c.set_state CharState.Jumping
        let c := { c with velocity := (c.velocity.1, 8) }
        let c := { c with is_grounded := false }
        (Except.ok "Started jumping", c)
      | (false, c) =>
        (Except.error "Cannot jump (not grounded or insufficient energy)", c)
    else
      (Except.error "Cannot jump (not grounded or insufficient energy)", c)
  | GameInput.Attack =>
    match c.consume_energy 15 with
    | (true, c) => (Except.ok "Started attacking", c.set_state (CharState.Attacking 0))
    | (false, c) => (Except.error "Insufficient energy to attack", c)
  | _ => (Except.ok "No action taken", c)

/-- `WalkingCharacterState::handle_input`. -/
def WalkingCharacterState.handle_input (c : GameCharacter) (input : GameInput) :
    Except String String × GameCharacter :=
  match input with
  | GameInput.MoveLeft =>
    let c := { c with facing_right := false }
    let c := { c with velocity := (-5, c.velocity.2) }
    (Except.ok "Walking left", c)
  | GameInput.MoveRight =>
    let c := { c with facing_right := true }
    let c := { c with velocity := (5, c.velocity.2) }
    (Except.ok "Walking right", c)
  | GameInput.Jump =>
    if c.is_grounded = true then
      match c.consume_energy 20 with
      | (true, c) =>
        let c := c.set_state CharState.Jumping
        let c := { c with velocity := (c.velocity.1, 8) }
        let c := { c with is_grounded := false }
        (Except.ok "Jumped while walking", c)
      | (false, c) => (Except.error "Cannot jump", c)
    else (Except.error "Cannot jump", c)
  | GameInput.Idle =>
    (Except.ok "Stopped walking", c.set_state CharState.Idle)
  | GameInput.Attack =>
    match c.consume_energy 15 with
    | (true, c) => (Except.ok "Attacked while walking", c.set_state (CharState.Attacking 0))
    | (false, c) => (Except.error "Insufficient energy to attack", c)
  | _ => (Except.ok "Continuing to walk", c)

/-- `JumpingCharacterState::handle_input`. -/
def JumpingCharacterState.handle_input (c : GameCharacter) (input : GameInput) :
    Except String String × GameCharacter :=
  match input with
  | GameInput.MoveLeft =>
    let c := { c with facing_right := false }
    let c := { c with velocity := (-3, c.velocity.2) }
    (Except.ok "Air control: moving left", c)
  | GameInput.MoveRight =>
    let c := { c with facing_right := true }
    let c := { c with velocity := (3, c.velocity.2) }
    (Except.ok "Air control: moving right", c)
  | GameInput.Attack =>
    match c.consume_energy 25 with
    | (true, c) => (Except.ok "Air attack!", c.set_state (CharState.Attacking 0))
    | (false, c) => (Except.error "Insufficient energy for air attack", c)
  | _ => (Except.ok "Character continues jumping", c)

/-- `AttackingCharacterState::handle_input` (never mutates anything). -/
def AttackingCharacterState.handle_input (c : GameCharacter) (input : GameInput) :
    Except String String × GameCharacter :=
  match input with
  | GameInput.Attack => (Except.ok "Already attacking", c)
  | _ => (Except.ok "Cannot act while attacking", c)

/-- `IdleCharacterState::update`. -/
def IdleCharacterState.update (c : GameCharacter) :
    Except String String × GameCharacter :=
  let c := { c with velocity := (c.velocity.1 * (4 / 5 : ℚ), c.velocity.2) }
  (Except.ok "Character is idle", c)

/-- `WalkingCharacterState::update`. -/
def WalkingCharacterState.update (c : GameCharacter) :
    Except String String × GameCharacter :=
  if abs c.velocity.1 < (1 / 10 : ℚ) then
    (Except.ok "Stopped walking, now idle", c.set_state CharState.Idle)
  else
    (Except.ok "Character is walking", c)

/-- `JumpingCharacterState::update`. -/
def JumpingCharacterState.update (c : GameCharacter) :
    Except String String × GameCharacter :=
  if c.is_grounded = true then
    if (1 / 10 : ℚ) < abs c.velocity.1 then
      (Except.ok "Landed and walking", c.set_state CharState.Walking)
    else
      (Except.ok "Landed and idle", c.set_state CharState.Idle)
  else
    (Except.ok "Character is in the air", c)

/-- `AttackingCharacterState::update`: bumps the timer on the detached state
object itself (returned as the middle component) before possibly calling
`set_state` on the character. -/
def AttackingCharacterState.update (t : ℚ) (c : GameCharacter) (delta_time : ℚ) :
    Except String String × ℚ × GameCharacter :=
  let t := t + delta_time
  if (1 / 2 : ℚ) ≤ t then
    if (1 / 10 : ℚ) < abs c.velocity.1 then
      (Except.ok "Attack finished, now walking", t, c.set_state CharState.Walking)
    else
      (Except.ok "Attack finished, now idle", t, c.set_state CharState.Idle)
  else
    (Except.ok "Character is attacking", t, c)

/-- Dispatch of `handle_input` to the detached state object; the middle
component is the detached object after the call. -/
def handleInputChar (st : CharState) (c : GameCharacter) (input : GameInput) :
    Except String String × CharState × GameCharacter :=
  match st with
  | CharState.Idle =>
    let (r, c) := IdleCharacterState.handle_input c input
    (r, CharState.Idle, c)
  | CharState.Walking =>
    let (r, c) := WalkingCharacterState.handle_input c input
    (r, CharState.Walking, c)
  | CharState.Jumping =>
    let (r, c) := JumpingCharacterState.handle_input c input
    (r, CharState.Jumping, c)
  | CharState.Attacking t =>
    let (r, c) := AttackingCharacterState.handle_input c input
    (r, CharState.Attacking t, c)

/-- Dispatch of `update` to the detached state object. -/
def updateChar (st : CharState) (c : GameCharacter) (delta_time : ℚ) :
    Except String String × CharState × GameCharacter :=
  match st with
  | CharState.Idle =>
    let (r, c) := IdleCharacterState.update c
    (r, CharState.Idle, c)
  | CharState.Walking =>
    let (r, c) := WalkingCharacterState.update c
    (r, CharState.Walking, c)
  | CharState.Jumping =>
    let (r, c) := JumpingCharacterState.update c
    (r, CharState.Jumping, c)
  | CharState.Attacking t =>
    let (r, t2, c) := AttackingCharacterState.update t c delta_time
    (r, CharState.Attacking t2, c)

/-- `GameCharacter::handle_input`: detach the state (placeholder
`IdleCharacterState`), run the handler, then assign the detached object back
into `current_state`. -/
def GameCharacter.handle_input (c : GameCharacter) (input : GameInput) :
    Except String String × GameCharacter :=
  let p := handleInputChar c.current_state { c with current_state := CharState.Idle } input
  (p.1, { p.2.2 with current_state := p.2.1 })

/-- `GameCharacter::update`: physics, gravity, ground check and energy
recovery, then the detach / handler / reinstall sequence. -/
def GameCharacter.update (c : GameCharacter) (delta_time : ℚ) :
    Except String String × GameCharacter :=
  let c := { c with animation_time := c.animation_time + delta_time }
  let c := { c with position :=
    (c.position.1 + c.velocity.1 * delta_time,
     c.position.2 + c.velocity.2 * delta_time) }
  let c := if c.is_grounded = true then c
    else { c with velocity := (c.velocity.1, c.velocity.2 - (98 / 10 : ℚ) * delta_time) }
  let c := if c.position.2 ≤ (0 : ℚ) then
      { c with
          position := (c.position.1, 0)
          velocity := (c.velocity.1, 0)
          is_grounded := true }
    else c
  let c := if c.energy < 100 then { c with energy := min (c.energy + 1) 100 } else c
  let p := updateChar c.current_state { c with current_state := CharState.Idle } delta_time
  (p.1, { p.2.2 with current_state := p.2.1 })

/-- One character-machine event: either a player input or an update tick. -/
inductive CharEvent where
  | input (i : GameInput)
  | update (delta_time : ℚ)
deriving DecidableEq, Repr

def GameCharacter.runChar (c : GameCharacter) : List CharEvent → GameCharacter
  | [] => c
  | CharEvent.input i :: es => ((c.handle_input i).2).runChar es
  | CharEvent.update dt :: es => ((c.update dt).2).runChar es

example : ((GameCharacter.new.handle_input GameInput.Attack).2).energy = 85 := by decide

example : ((GameCharacter.new.handle_input GameInput.Jump).2).get_state_name = "Idle" := by
  decide

/-! ## Theorems for the claims -/

/-- Claim C1: the claim says the state current when a dispatch returns is the
handler's designated successor on an accepted event.  In the code, the
handler `IdleState::insert_coin` designates `HasMoney` (first conjunct), the
event is accepted (`Ok`), yet the state current when the public
`insert_coin(150)` call returns is still `Idle` (second conjunct): the
wrapper assigns the detached old state object back into `current_state`
after the handler, discarding the handler's transition.  The in-file test
`test_vending_machine_states` asserts `HasMoney` at exactly this point, so
the code contradicts its own test. -/
theorem C1_wrapper_discards_handler_transition :
    (IdleState.insert_coin VendingMachine.new 150).2.current_state = VMState.HasMoney
    ∧ (VendingMachine.new.step (VMEvent.insertCoin 150)).map
        (fun p => (p.1, p.2.current_state))
      = some (Except.ok "Inserted 150¢. Total: 150¢", VMState.Idle) := by
  decide

/-- Claim C2: the claimed round-trip (insert exactly the price, select,
dispense) does not happen in the code.  After `insert_coin(150)` the machine
is still reported `Idle` (the wrapper discarded the transition to
`HasMoney`), so `select_product("A1")` is handled by `IdleState` and is
rejected with "Please insert coins first", `dispense` is rejected with
"No product selected", and after the whole sequence the stock of `A1` is
still 10, `inserted_amount` is still 150 and the state is `Idle`. -/
theorem C2_round_trip_purchase_fails :
    ((VendingMachine.new.run [VMEvent.insertCoin 150]).bind
        (fun m => m.step (VMEvent.selectProduct "A1"))).map (fun p => p.1)
      = some (Except.error "Please insert coins first")
    ∧ ((VendingMachine.new.run [VMEvent.insertCoin 150, VMEvent.selectProduct "A1"]).bind
        (fun m => m.step VMEvent.dispense)).map (fun p => p.1)
      = some (Except.error "No product selected")
    ∧ (VendingMachine.new.run
        [VMEvent.insertCoin 150, VMEvent.selectProduct "A1", VMEvent.dispense]).map
        (fun m => (m.get_state_name, m.inserted_amount, m.selected_product,
          (findProduct m.products "A1").map Product.stock, m.change_dispenser))
      = some ("Idle", 150, none, some 10, 1000) := by
  refine ⟨by decide, by decide, by decide⟩

/-- A traffic light freshly entered into Green (what `set_state(GreenLightState)`
produces on a light with no pedestrian request and no emergency). -/
def freshGreenLight : TrafficLight :=
  { current_state := TrafficColor.Green, elapsed_time := 0,
    is_pedestrian_requested := false, emergency_mode := false }

/-- Claim C3: the claim (and the in-file test `test_traffic_light_states`)
says the light turns Green on the 31st tick, and a fresh Green goes to
Yellow after 45 ticks.  In the code the light never leaves its initial
color: when the duration elapses, `next()` installs the successor and
resets `elapsed_time`, but the `tick` wrapper then assigns the detached old
state object back into `current_state`.  After 31 ticks from `new()` the
color is still Red, and a fresh Green is still Green after 45 (and 46)
ticks. -/
theorem C3_light_never_changes_color :
    (TrafficLight.new.tickN 30).get_current_color = TrafficColor.Red
    ∧ (TrafficLight.new.tickN 31).get_current_color = TrafficColor.Red
    ∧ (freshGreenLight.tickN 45).get_current_color = TrafficColor.Green
    ∧ (freshGreenLight.tickN 46).get_current_color = TrafficColor.Green := by
  set_option maxRecDepth 8000 in
  refine ⟨by decide, by decide, by decide, by decide⟩

/-- Claim C5: after `insert_coin(50)` the machine is still reported `Idle`
(the transition to `HasMoney` was discarded by the wrapper), so
`select_product("A1")` is rejected by `IdleState` with
"Please insert coins first" — a message that does not contain
"Insufficient funds" — and the reported state stays `Idle`, not
`HasMoney`.  The stock of `A1` is unchanged (that part of the claim holds).
The in-file test `test_vending_machine_insufficient_funds` asserts the
"Insufficient funds" message, so the code contradicts its own test. -/
theorem C5_insufficient_funds_path_unreachable :
    ∃ m₁, VendingMachine.new.step (VMEvent.insertCoin 50)
        = some (Except.ok "Inserted 50¢. Total: 50¢", m₁)
      ∧ m₁.step (VMEvent.selectProduct "A1")
        = some (Except.error "Please insert coins first", m₁)
      ∧ m₁.get_state_name = "Idle"
      ∧ ¬ ("Insufficient funds".data <:+: "Please insert coins first".data)
      ∧ (findProduct m₁.products "A1").map Product.stock = some 10 :=
  ⟨{ VendingMachine.new with inserted_amount := 50 },
    by decide, by decide, by decide, by decide, by decide⟩

/-- The character reached from `GameCharacter::new()` by six Attack inputs:
each consumes 15 energy (the transition to `Attacking` is discarded by the
wrapper, so every Attack is handled by `IdleCharacterState`), leaving
energy 10. -/
def c8Drained : GameCharacter :=
  GameCharacter.new.runChar (List.replicate 6 (CharEvent.input GameInput.Attack))

/-- `c8Drained` after ten `update(1.0)` ticks of passive regeneration. -/
def c8Recovered : GameCharacter :=
  c8Drained.runChar (List.replicate 10 (CharEvent.update 1))

/-- Claim C8: the error half of the claim holds on this trace (Jump with
energy 10 < 20 is rejected and changes nothing), and regeneration raises
energy to 20 after ten updates, after which Jump succeeds and consumes all
20 energy — but the transition to `Jumping` does not happen: the reported
state is still `Idle`, because the wrapper assigns the detached old state
object back into `current_state`.  The in-file test
`test_game_character_states` asserts the state name changes on a successful
input, so the code contradicts its own test. -/
theorem C8_jump_spends_energy_without_transition :
    c8Drained.energy = 10
    ∧ c8Drained.is_grounded = true
    ∧ c8Drained.handle_input GameInput.Jump
        = (Except.error "Cannot jump (not grounded or insufficient energy)", c8Drained)
    ∧ c8Recovered.energy = 20
    ∧ (c8Recovered.handle_input GameInput.Jump).1 = Except.ok "Started jumping"
    ∧ ((c8Recovered.handle_input GameInput.Jump).2).energy = 0
    ∧ ((c8Recovered.handle_input GameInput.Jump).2).get_state_name = "Idle" := by
  have hd : c8Drained = { GameCharacter.new with energy := 10 } := by decide
  have hr : c8Recovered
      = { GameCharacter.new with energy := 20, animation_time := 10 } := by
    norm_num [c8Recovered, hd, GameCharacter.runChar, GameCharacter.update, updateChar,
      IdleCharacterState.update, GameCharacter.new, List.replicate,
      GameCharacter.set_state, Nat.min_def]
  refine ⟨by rw [hd], by rw [hd]; rfl, by rw [hd]; decide,
    by rw [hr], by rw [hr]; decide, by rw [hr]; decide, by rw [hr]; decide⟩

/-- In emergency mode a `tick` forces Red and leaves the flag set. -/
theorem tick_emergency_red (l : TrafficLight) (h : l.emergency_mode = true) :
    (l.tickL).current_state = TrafficColor.Red ∧ (l.tickL).emergency_mode = true := by
  simp [TrafficLight.tickL, TrafficLight.tick, TrafficLight.set_state, h]

/-- While the emergency flag is set and the light is Red, any number of
ticks keeps it Red with the flag set. -/
theorem tickN_emergency_red : ∀ (n : Nat) (l : TrafficLight),
    l.emergency_mode = true → l.current_state = TrafficColor.Red →
    (l.tickN n).current_state = TrafficColor.Red
    ∧ (l.tickN n).emergency_mode = true := by
  intro n
  induction n with
  | zero => intro l h1 h2; exact ⟨h2, h1⟩
  | succ k ih =>
    intro l h1 h2
    have h3 := tick_emergency_red l h1
    simpa only [TrafficLight.tickN] using ih l.tickL h3.2 h3.1

/-- Claim C6: from any traffic-light state and any elapsed time, after
`set_emergency_mode(true)` the current color is Red after every number of
further `tick` calls (in particular after one), and the flag stays set until
cleared.  `set_emergency_mode(true)` itself installs `RedLightState`, and the
emergency branch of `tick` re-installs it before any duration logic runs. -/
theorem C6_emergency_mode_forces_and_holds_red :
    ∀ (l : TrafficLight) (n : Nat),
      ((l.set_emergency_mode true).tickN n).get_current_color = TrafficColor.Red
      ∧ ((l.set_emergency_mode true).tickN n).emergency_mode = true := by
  intro l n
  have h := tickN_emergency_red n (l.set_emergency_mode true)
    (by simp [TrafficLight.set_emergency_mode, TrafficLight.set_state])
    (by simp [TrafficLight.set_emergency_mode, TrafficLight.set_state])
  exact ⟨h.1, h.2⟩

/-- Claim C7: the pedestrian extension in `GreenLightState::next` is dead
code.  `tick` only invokes `next` once `elapsed_time ≥ duration = 45`, while
the extension guard requires `elapsed_time < 45`, so no `tick` ever clears
the pedestrian request (first conjunct), and whenever the Green duration
elapses on a tick — the claim's scenario — the result is the ordinary
GREEN-to-YELLOW message, never the deferral (second conjunct). -/
theorem C7_pedestrian_extension_never_fires :
    ∀ l : TrafficLight,
      ((l.tick).2).is_pedestrian_requested = l.is_pedestrian_requested
      ∧ (l.current_state = TrafficColor.Green → l.emergency_mode = false →
          45 ≤ l.elapsed_time + 1 →
          (l.tick).1 = Except.ok "Traffic light changed from GREEN to YELLOW") := by
  intro l
  constructor
  · by_cases hem : l.emergency_mode = true
    · simp [TrafficLight.tick, TrafficLight.set_state, hem]
    · cases hst : l.current_state with
      | Red =>
        by_cases hdur : (30 : Nat) ≤ l.elapsed_time + 1 <;>
          simp [TrafficLight.tick, TrafficLight.set_state, lightNext, lightDuration,
            hem, hst, hdur]
      | Yellow =>
        by_cases hdur : (5 : Nat) ≤ l.elapsed_time + 1 <;>
          simp [TrafficLight.tick, TrafficLight.set_state, lightNext, lightDuration,
            hem, hst, hdur]
      | Green =>
        by_cases hdur : (45 : Nat) ≤ l.elapsed_time + 1
        · have hng : ¬(l.elapsed_time + 1 < 45) := by omega
          simp [TrafficLight.tick, TrafficLight.set_state, lightNext, lightDuration,
            hem, hst, hdur, hng]
        · simp [TrafficLight.tick, TrafficLight.set_state, lightNext, lightDuration,
            hem, hst, hdur]
  · intro h1 h2 h3
    have hng : ¬(l.elapsed_time + 1 < 45) := by omega
    simp [TrafficLight.tick, TrafficLight.set_state, lightNext, lightDuration,
      h1, h2, h3, hng]

/-- A light in Green, one second before the duration elapses, with a
pedestrian request pending: the claim's deferral scenario. -/
def pedGreenLight : TrafficLight :=
  { current_state := TrafficColor.Green, elapsed_time := 44,
    is_pedestrian_requested := true, emergency_mode := false }

/-- Witness for C7 at the concrete deferral scenario: the tick on which the
Green duration elapses leaves the request pending and reports the ordinary
GREEN-to-YELLOW change. -/
theorem C7_witness :
    ((pedGreenLight.tick).2).is_pedestrian_requested = true
    ∧ (pedGreenLight.tick).1 = Except.ok "Traffic light changed from GREEN to YELLOW" :=
  ⟨(C7_pedestrian_extension_never_fires pedGreenLight).1,
    (C7_pedestrian_extension_never_fires pedGreenLight).2 rfl rfl (by decide)⟩

/-- Every handler reached from the `Idle` state returns (only
`DispensingState::dispense` can panic, and it is not reachable from `Idle`). -/
theorem handleVM_idle_isSome (e : VMEvent) (m : VendingMachine) :
    (handleVM VMState.Idle e m).isSome = true := by
  cases e <;> rfl

/-- A public dispatch on a machine whose current state is `Idle` never
panics. -/
theorem step_isSome_of_idle (m : VendingMachine) (e : VMEvent)
    (h : m.current_state = VMState.Idle) : (m.step e).isSome = true := by
  unfold VendingMachine.step
  rw [h]
  cases e <;> rfl

/-- The public wrappers always assign the detached old state object back, so
a dispatch never changes `current_state`. -/
theorem step_preserves_current_state (m : VendingMachine) (e : VMEvent) :
    ∀ p, m.step e = some p → p.2.current_state = m.current_state := by
  intro p hp
  unfold VendingMachine.step at hp
  cases hh : handleVM m.current_state e { m with current_state := VMState.Idle } with
  | none => rw [hh] at hp; cases hp
  | some q => rw [hh] at hp; cases hp; rfl

/-- Running any event sequence from an `Idle` machine panics nowhere and ends
in an `Idle` machine. -/
theorem run_from_idle : ∀ (es : List VMEvent) (m : VendingMachine),
    m.current_state = VMState.Idle →
    ∃ m₂, m.run es = some m₂ ∧ m₂.current_state = VMState.Idle := by
  intro es
  induction es with
  | nil => intro m h; exact ⟨m, rfl, h⟩
  | cons e es ih =>
    intro m h
    have hs : (m.step e).isSome = true := step_isSome_of_idle m e h
    cases hp : m.step e with
    | none => rw [hp] at hs; cases hs
    | some p =>
      have h2 := step_preserves_current_state m e p hp
      rw [h] at h2
      obtain ⟨m₂, hr, hi⟩ := ih p.2 h2
      refine ⟨m₂, ?_, hi⟩
      unfold VendingMachine.run
      rw [hp]
      exact hr

/-- The invariant named by claim C9, as a decidable check: whenever
`DispensingState::dispense` would reach the change computation for the
selected product (current state `Dispensing`, a product selected, found and
in stock), the inserted amount covers its price, so the `u32` subtraction
`inserted_amount - product_price` cannot underflow. -/
def dispenseChangeSafe (m : VendingMachine) : Bool :=
  match m.current_state, m.selected_product with
  | VMState.Dispensing, some pid =>
    match findProduct m.products pid with
    | some p => if 0 < p.stock then decide (p.price ≤ m.inserted_amount) else true
    | none => true
  | _, _ => true

/-- Claim C9: on every machine reachable from `VendingMachine::new()` by a
completed sequence of the public dispatch operations, whenever
`DispensingState::dispense` would reach the change computation for the
selected product, the inserted amount covers the price
(`dispenseChangeSafe`), and dispatching `dispense` does not panic — the
underflow site of the `u32` subtraction is never reached.  (This holds
because the wrapper reinstalls the detached old state after every dispatch,
so every reachable machine still has current state `Idle`, where `dispense`
is rejected before any arithmetic.) -/
theorem C9_reachable_dispense_never_underflows :
    ∀ (es : List VMEvent) (m : VendingMachine),
      VendingMachine.new.run es = some m →
      (m.step VMEvent.dispense).isSome = true ∧ dispenseChangeSafe m = true := by
  intro es m hr
  obtain ⟨m₂, hr2, hi⟩ := run_from_idle es VendingMachine.new rfl
  rw [hr] at hr2
  cases hr2
  refine ⟨step_isSome_of_idle m VMEvent.dispense hi, ?_⟩
  unfold dispenseChangeSafe
  rw [hi]

/-- Witness for C9 at the concrete empty sequence: the freshly constructed
machine satisfies the dispense-site invariant and its `dispense` dispatch
does not panic. -/
theorem C9_witness :
    (VendingMachine.new.step VMEvent.dispense).isSome = true
    ∧ dispenseChangeSafe VendingMachine.new = true :=
  C9_reachable_dispense_never_underflows [] VendingMachine.new rfl

/-- Claim C10: every public dispatch leaves the reported state name equal to
its pre-call value (the wrapper assigns the detached old state object back
into `current_state` after the handler), and consequently after any sequence
of public operations starting from `VendingMachine::new()` the reported
state name is still "Idle". -/
theorem C10_state_name_never_changes :
    (∀ (m : VendingMachine) (e : VMEvent) (p : Except String String × VendingMachine),
        m.step e = some p → p.2.get_state_name = m.get_state_name)
    ∧ (∀ (es : List VMEvent) (m : VendingMachine),
        VendingMachine.new.run es = some m → m.get_state_name = "Idle") := by
  constructor
  · intro m e p hp
    unfold VendingMachine.get_state_name
    rw [step_preserves_current_state m e p hp]
  · intro es m hr
    obtain ⟨m₂, hr2, hi⟩ := run_from_idle es VendingMachine.new rfl
    rw [hr] at hr2
    cases hr2
    simp [VendingMachine.get_state_name, hi]

/-- Witness for C10 at a concrete accepted event: the machine after
`insert_coin(150)` from `new()` reports the same state name as before the
call. -/
theorem C10_witness :
    ({ VendingMachine.new with inserted_amount := 150 } : VendingMachine).get_state_name
      = VendingMachine.new.get_state_name :=
  C10_state_name_never_changes.1 VendingMachine.new (VMEvent.insertCoin 150)
    (Except.ok "Inserted 150¢. Total: 150¢",
      { VendingMachine.new with inserted_amount := 150 })
    (by decide)

/-- Equality of the vending-machine context fields named by claim C4
(everything except the current state object). -/
def sameVMContext (m m₂ : VendingMachine) : Prop :=
  m₂.inserted_amount = m.inserted_amount
  ∧ m₂.selected_product = m.selected_product
  ∧ m₂.products = m.products
  ∧ m₂.change_dispenser = m.change_dispenser

instance (m m₂ : VendingMachine) : Decidable (sameVMContext m m₂) := by
  unfold sameVMContext; infer_instance

/-- A vending machine in `Dispensing` with 2000¢ inserted and "A1" selected:
the change owed (1850¢) exceeds the 1000¢ reserve, so
`DispensingState::dispense` fails in `dispense_change` *after* having
decremented the stock. -/
def changeShortMachine : VendingMachine :=
  { VendingMachine.new with
      current_state := VMState.Dispensing
      inserted_amount := 2000
      selected_product := some "A1" }

/-- Counterexample to claim C4 as stated: dispatching `dispense` on
`changeShortMachine` returns an error, yet the context is not unchanged —
the stock of the selected product has been decremented from 10 to 9. -/
theorem C4_counterexample :
    ∃ m₂, changeShortMachine.step VMEvent.dispense
        = some (Except.error "Insufficient change available", m₂)
      ∧ ¬ sameVMContext changeShortMachine m₂
      ∧ (findProduct m₂.products "A1").map Product.stock = some 9
      ∧ (findProduct changeShortMachine.products "A1").map Product.stock = some 10 :=
  ⟨{ changeShortMachine with
      products := decrementStock changeShortMachine.products "A1" },
    by decide, by decide, by decide, by decide⟩

/-- An error result of a state handler leaves the vending context unchanged,
except for the change-shortfall path of `DispensingState::dispense`, where
the stock of the selected product has already been decremented. -/
theorem handleVM_error_context (st : VMState) (e : VMEvent) (m : VendingMachine)
    (q : Except String String × VendingMachine) (msg : String)
    (hq : handleVM st e m = some q) (herr : q.1 = Except.error msg) :
    sameVMContext m q.2
    ∨ (e = VMEvent.dispense ∧ st = VMState.Dispensing
        ∧ msg = "Insufficient change available"
        ∧ ∃ pid, m.selected_product = some pid
          ∧ q.2.inserted_amount = m.inserted_amount
          ∧ q.2.selected_product = m.selected_product
          ∧ q.2.change_dispenser = m.change_dispenser
          ∧ q.2.products = decrementStock m.products pid) := by
  cases st with
  | Idle =>
    cases e with
    | insertCoin a =>
      simp only [handleVM, IdleState.insert_coin, VendingMachine.set_state] at hq
      split at hq
      · cases hq; exact Or.inl ⟨rfl, rfl, rfl, rfl⟩
      · cases hq; simp at herr
    | selectProduct pid =>
      simp only [handleVM] at hq; cases hq; exact Or.inl ⟨rfl, rfl, rfl, rfl⟩
    | dispense =>
      simp only [handleVM] at hq; cases hq; exact Or.inl ⟨rfl, rfl, rfl, rfl⟩
    | cancelTransaction =>
      simp only [handleVM] at hq; cases hq; simp at herr
  | HasMoney =>
    cases e with
    | insertCoin a =>
      simp only [handleVM, HasMoneyState.insert_coin] at hq
      split at hq
      · cases hq; exact Or.inl ⟨rfl, rfl, rfl, rfl⟩
      · cases hq; simp at herr
    | selectProduct pid =>
      simp only [handleVM, HasMoneyState.select_product, VendingMachine.get_product,
        VendingMachine.set_state] at hq
      split at hq
      · cases hq; exact Or.inl ⟨rfl, rfl, rfl, rfl⟩
      · split at hq
        · cases hq; exact Or.inl ⟨rfl, rfl, rfl, rfl⟩
        · split at hq
          · cases hq; exact Or.inl ⟨rfl, rfl, rfl, rfl⟩
          · split at hq
            · cases hq; exact Or.inl ⟨rfl, rfl, rfl, rfl⟩
            · cases hq; simp at herr
    | dispense =>
      simp only [handleVM] at hq; cases hq; exact Or.inl ⟨rfl, rfl, rfl, rfl⟩
    | cancelTransaction =>
      simp only [handleVM, HasMoneyState.cancel_transaction,
        VendingMachine.set_state] at hq
      cases hq; simp at herr
  | Dispensing =>
    cases e with
    | insertCoin a =>
      simp only [handleVM] at hq; cases hq; exact Or.inl ⟨rfl, rfl, rfl, rfl⟩
    | selectProduct pid =>
      simp only [handleVM] at hq; cases hq; exact Or.inl ⟨rfl, rfl, rfl, rfl⟩
    | cancelTransaction =>
      simp only [handleVM] at hq; cases hq; exact Or.inl ⟨rfl, rfl, rfl, rfl⟩
    | dispense =>
      simp only [handleVM, DispensingState.dispense, VendingMachine.get_product,
        VendingMachine.set_state, resetAfterDispense] at hq
      split at hq
      · -- no product selected
        cases hq; exact Or.inl ⟨rfl, rfl, rfl, rfl⟩
      · next pid hsel =>
        split at hq
        · next product hfp =>
          split at hq
          · -- stock > 0: stock already decremented
            split at hq
            · -- underflow: panic, not an error return
              cases hq
            · split at hq
              · -- change > 0
                split at hq
                · next err hchange =>
                  -- dispense_change failed after the stock decrement
                  cases hq
                  unfold VendingMachine.dispense_change at hchange
                  split at hchange
                  · cases hchange
                  · injection hchange with h2
                    subst h2
                    injection herr with hmsg
                    subst hmsg
                    exact Or.inr ⟨rfl, rfl, rfl, pid, hsel, rfl, rfl, rfl, rfl⟩
                · next m3 hchange =>
                  -- dispense_change succeeded: Ok result
                  cases hq; simp at herr
              · -- change = 0: Ok result
                cases hq; simp at herr
          · -- out of stock: error, but context untouched (only set_state)
            cases hq; exact Or.inl ⟨rfl, rfl, rfl, rfl⟩
        · -- selected product not found: Ok("") result
          cases hq; simp at herr

/-- An error result of a character input handler leaves the character
completely unchanged: every `Err` path of
`{Idle,Walking,Jumping,Attacking}CharacterState::handle_input` is reached
before any mutation (`consume_energy` only subtracts when it succeeds). -/
theorem handleInputChar_error_no_mutation (st : CharState) (c : GameCharacter)
    (i : GameInput) (msg : String)
    (h : (handleInputChar st c i).1 = Except.error msg) :
    (handleInputChar st c i).2.2 = c := by
  cases st <;> cases i <;>
    simp only [handleInputChar, IdleCharacterState.handle_input,
      WalkingCharacterState.handle_input, JumpingCharacterState.handle_input,
      AttackingCharacterState.handle_input, GameCharacter.consume_energy,
      GameCharacter.set_state] at h ⊢ <;>
    first
      | rfl
      | exact absurd h (by simp)
      | skip
  case Idle.Jump =>
    by_cases hg : c.is_grounded = true
    · by_cases he : 20 ≤ c.energy
      · simp [hg, he] at h
      · simp [hg, he] at h ⊢
    · simp [hg] at h ⊢
  case Idle.Attack =>
    by_cases he : 15 ≤ c.energy
    · simp [he] at h
    · simp [he] at h ⊢
  case Walking.Jump =>
    by_cases hg : c.is_grounded = true
    · by_cases he : 20 ≤ c.energy
      · simp [hg, he] at h
      · simp [hg, he] at h ⊢
    · simp [hg] at h ⊢
  case Walking.Attack =>
    by_cases he : 15 ≤ c.energy
    · simp [he] at h
    · simp [he] at h ⊢
  case Jumping.Attack =>
    by_cases he : 25 ≤ c.energy
    · simp [he] at h
    · simp [he] at h ⊢

/-- No `update` path of any character state ever returns an error. -/
theorem updateChar_never_errors (st : CharState) (c : GameCharacter) (dt : ℚ)
    (msg : String) : (updateChar st c dt).1 ≠ Except.error msg := by
  intro h
  cases st <;>
    simp only [updateChar, IdleCharacterState.update, WalkingCharacterState.update,
      JumpingCharacterState.update, AttackingCharacterState.update,
      GameCharacter.set_state] at h <;>
    (try split at h) <;>
    (try split at h) <;>
    simp at h

/-- Claim C4 as amended: for every machine state and every event whose
dispatch returns `Err`, the context fields are identical before and after
the call, with one exception forced by the counterexample:
`DispensingState::dispense` when the selected product is found and in stock
but the change dispenser cannot cover the change — there the dispatch
returns `Err("Insufficient change available")` with the selected product's
stock already decremented, while `inserted_amount`, `selected_product` and
`change_dispenser` are still unchanged.  For the game character, every
rejected `handle_input` leaves energy and position unchanged, and `update`
never returns `Err` at all. -/
theorem C4_amended_no_op_on_reject :
    (∀ (m : VendingMachine) (e : VMEvent) (msg : String)
        (p : Except String String × VendingMachine),
      m.step e = some p → p.1 = Except.error msg →
      sameVMContext m p.2
      ∨ (e = VMEvent.dispense ∧ m.current_state = VMState.Dispensing
          ∧ msg = "Insufficient change available"
          ∧ ∃ pid, m.selected_product = some pid
            ∧ p.2.inserted_amount = m.inserted_amount
            ∧ p.2.selected_product = m.selected_product
            ∧ p.2.change_dispenser = m.change_dispenser
            ∧ p.2.products = decrementStock m.products pid))
    ∧ (∀ (c : GameCharacter) (i : GameInput) (msg : String)
        (q : Except String String × GameCharacter),
      c.handle_input i = q → q.1 = Except.error msg →
      q.2.energy = c.energy ∧ q.2.position = c.position)
    ∧ (∀ (c : GameCharacter) (dt : ℚ) (msg : String),
      (c.update dt).1 ≠ Except.error msg) := by
  refine ⟨?_, ?_, ?_⟩
  · intro m e msg p hp herr
    unfold VendingMachine.step at hp
    cases hh : handleVM m.current_state e { m with current_state := VMState.Idle } with
    | none => rw [hh] at hp; cases hp
    | some q =>
      rw [hh] at hp
      cases hp
      rcases handleVM_error_context m.current_state e
          { m with current_state := VMState.Idle } q msg hh herr with h | h
      · exact Or.inl ⟨h.1, h.2.1, h.2.2.1, h.2.2.2⟩
      · obtain ⟨he, hs, hm, pid, hsel, h1, h2, h3, h4⟩ := h
        exact Or.inr ⟨he, hs, hm, pid, hsel, h1, h2, h3, h4⟩
  · intro c i msg q hq herr
    cases hq
    have h := handleInputChar_error_no_mutation c.current_state
      { c with current_state := CharState.Idle } i msg herr
    refine ⟨?_, ?_⟩
    · show (handleInputChar c.current_state { c with current_state := CharState.Idle } i).2.2.energy
        = ({ c with current_state := CharState.Idle } : GameCharacter).energy
      exact congrArg GameCharacter.energy h
    · show (handleInputChar c.current_state { c with current_state := CharState.Idle } i).2.2.position
        = ({ c with current_state := CharState.Idle } : GameCharacter).position
      exact congrArg GameCharacter.position h
  · intro c dt msg h
    exact updateChar_never_errors _ _ dt msg h

/-- Witness for the amended C4 at a concrete rejected event: selecting a
product on the freshly constructed machine is rejected and the context is
unchanged. -/
theorem C4_amended_witness : sameVMContext VendingMachine.new VendingMachine.new :=
  (C4_amended_no_op_on_reject.1 VendingMachine.new (VMEvent.selectProduct "A1")
    "Please insert coins first"
    (Except.error "Please insert coins first", VendingMachine.new)
    (by decide) rfl).resolve_right (fun hr => by cases hr.1)
